import Mathlib

/-!
# Verification of the go-l2tp control-message codec

A shallow embedding of the L2TP control-message layer (`src/l2tp/msg.go` and
`src/unnamed/part_000`, two revisions of the same Go subsystem) together with
proofs about the decode, encode, buffer-split, validation and builder paths.

Byte buffers are `List Nat`; every read masks with `% 256` because a Go
`[]byte` element is an octet by construction.  Go `uint16` arithmetic is
modelled with explicit `% 65536`.  Fallible Go functions returning
`(value, error)` become `Except l2tpError α`; Go `panic` sites become
distinguished error constructors so that reachability of a panic is visible
in the model.

The AVP subsystem (`avp.go`) is not part of the given sources; its contract
is pinned down by the specification (opaque entity with vendor id, type tag,
payload, total encoded length, encode/decode operations).  Definitions for it
below are marked "Modelled from the spec".
-/

namespace L2tp

/-- The error/panic outcomes of the subsystem, one constructor per distinct
failure site in the source. -/
inductive l2tpError where
  /-- `binary.Read` failed: not enough bytes for a fixed-size header. -/
  | truncatedHeader : l2tpError
  /-- "illegal protocol version" from `l2tpCommonHeader.protocolVersion`. -/
  | illegalProtocolVersion : l2tpError
  /-- "malformed header: length %d exceeds buffer bounds of %d". -/
  | malformedHeader (len rem : Nat) : l2tpError
  /-- Modelled from the spec: AVP buffer parse failure (malformed AVP length). -/
  | avpMalformed : l2tpError
  /-- Modelled from the spec: the AVP subsystem fails when no AVPs are present
  in a (nonempty) input buffer. -/
  | noAvpsPresent : l2tpError
  /-- "invalid L2TPv2 message: first AVP is not Message Type AVP". -/
  | firstAvpNotMessageTypeV2 : l2tpError
  /-- "invalid L2TPv3 message: first AVP is not Message Type AVP". -/
  | firstAvpNotMessageTypeV3 : l2tpError
  /-- Go slice-bounds panic `b[12:hdr.Common.Len]` (length field below the
  header size in the unguarded v3 path, or beyond the buffer). -/
  | sliceBounds : l2tpError
  /-- Go index panic `avps[0]` on an empty AVP sequence (unreachable while the
  AVP subsystem never returns an empty sequence). -/
  | emptyAvps : l2tpError
  /-- `getType` panic "Invalid L2TPv2 message" (first AVP not Message-Type). -/
  | panicNotMessageAvp : l2tpError
  /-- `getType` panic "Failed to decode AVP message type". -/
  | panicMsgTypeDecode : l2tpError
  /-- Modelled from the spec: message-type AVP payload is not a 2-octet
  enumerant. -/
  | msgTypeDecode : l2tpError
  /-- "no specification for v2 message %v". -/
  | noSpecForMessage (t : Nat) : l2tpError
  /-- "unexpected AVP %v in message %v". -/
  | unexpectedAvp (a t : Nat) : l2tpError
  /-- "failed to decode AVP %v in message %v". -/
  | avpDecodeFailed (a t : Nat) : l2tpError
  /-- "missing mandatory AVP %v in message %v". -/
  | missingMandatoryAvp (a t : Nat) : l2tpError
  /-- "v2 tunnel ID %v out of range". -/
  | tidOutOfRange (id : Nat) : l2tpError
  /-- "v2 session ID %v out of range". -/
  | sidOutOfRange (id : Nat) : l2tpError
  /-- "failed to create AVP %v". -/
  | avpCreateFailed (t : Nat) : l2tpError
  /-- Modelled from the spec: AVP payload exceeds the 10-bit AVP length field. -/
  | avpTooBig : l2tpError
  /-- "newL2tpV3ControlMessage not implemented" (msg.go revision). -/
  | notImplemented : l2tpError
  /-- Artifact of the embedding: iteration bound of a loop exhausted.  The
  loops below are instantiated with one more iteration than the buffer has
  octets while every iteration consumes at least one octet, so this outcome
  is unreachable. -/
  | outOfFuel : l2tpError
deriving DecidableEq, Repr

instance {ε α : Type} [DecidableEq ε] [DecidableEq α] : DecidableEq (Except ε α) :=
  fun x y =>
  match x, y with
  | .ok a, .ok b =>
    if h : a = b then .isTrue (by rw [h]) else .isFalse (fun hc => by cases hc; exact h rfl)
  | .ok _, .error _ => .isFalse (fun hc => by cases hc)
  | .error _, .ok _ => .isFalse (fun hc => by cases hc)
  | .error e, .error f =>
    if h : e = f then .isTrue (by rw [h]) else .isFalse (fun hc => by cases hc; exact h rfl)

/-- Read one octet of a Go `[]byte`: entries are bytes by construction, so
reads mask to an octet. Out-of-range reads yield 0 (never exercised without a
preceding length guard, mirroring Go bounds checks). -/
def byteAt (b : List Nat) (i : Nat) : Nat := b.getD i 0 % 256

/-- Big-endian 16-bit read at offset `i`, as done by `binary.Read` with
`binary.BigEndian` on a `uint16` field. -/
def be16 (b : List Nat) (i : Nat) : Nat := byteAt b i * 256 + byteAt b (i + 1)

/-- Big-endian 16-bit encoding of a `uint16` value, as done by
`binary.Write`. -/
def u16BE (n : Nat) : List Nat := [n / 256 % 256, n % 256]

/-! ## Constants (source `const` block and RFC2661 enumerations)

The `avpType` and `avpMsgType` enumerations live in the absent `avp.go`;
their numeric values are modelled from the spec's RFC2661 §6 table (AVP
attribute types 0–13) and RFC3931 (ACK message type 20), which is what the
source symbols refer to. -/

def controlMessageMinLen : Nat := 12
def commonHeaderLen : Nat := 4
def v2HeaderLen : Nat := 12
def v3HeaderLen : Nat := 12

/-- Modelled from the spec: RFC2661 AVP attribute type Message-Type. -/
def avpTypeMessage : Nat := 0
/-- Modelled from the spec: RFC2661 AVP attribute type Result-Code. -/
def avpTypeResultCode : Nat := 1
/-- Modelled from the spec: RFC2661 AVP attribute type Protocol-Version. -/
def avpTypeProtocolVersion : Nat := 2
/-- Modelled from the spec: RFC2661 AVP attribute type Framing-Capabilities. -/
def avpTypeFramingCap : Nat := 3
/-- Modelled from the spec: RFC2661 AVP attribute type Bearer-Capabilities. -/
def avpTypeBearerCap : Nat := 4
/-- Modelled from the spec: RFC2661 AVP attribute type Tie-Breaker. -/
def avpTypeTiebreaker : Nat := 5
/-- Modelled from the spec: RFC2661 AVP attribute type Firmware-Revision. -/
def avpTypeFirmwareRevision : Nat := 6
/-- Modelled from the spec: RFC2661 AVP attribute type Host-Name. -/
def avpTypeHostName : Nat := 7
/-- Modelled from the spec: RFC2661 AVP attribute type Vendor-Name. -/
def avpTypeVendorName : Nat := 8
/-- Modelled from the spec: RFC2661 AVP attribute type Assigned-Tunnel-ID. -/
def avpTypeTunnelID : Nat := 9
/-- Modelled from the spec: RFC2661 AVP attribute type Receive-Window-Size. -/
def avpTypeRxWindowSize : Nat := 10
/-- Modelled from the spec: RFC2661 AVP attribute type Challenge. -/
def avpTypeChallenge : Nat := 11
/-- Modelled from the spec: RFC2661 AVP attribute type Challenge-Response. -/
def avpTypeChallengeResponse : Nat := 13

/-- Modelled from the spec: RFC2661 message type SCCRQ. -/
def avpMsgTypeSccrq : Nat := 1
/-- Modelled from the spec: RFC2661 message type SCCRP. -/
def avpMsgTypeSccrp : Nat := 2
/-- Modelled from the spec: RFC2661 message type SCCCN. -/
def avpMsgTypeScccn : Nat := 3
/-- Modelled from the spec: RFC2661 message type StopCCN. -/
def avpMsgTypeStopccn : Nat := 4
/-- Modelled from the spec: RFC2661 message type Hello. -/
def avpMsgTypeHello : Nat := 6
/-- Modelled from the spec: the RFC3931 ACK message type, (ab)used by `getType`
as the pseudo-type of a v2 zero-length-body acknowledgement. -/
def avpMsgTypeAck : Nat := 20

/-! ## The AVP entity (modelled from the spec)

The spec pins the collaborator contract down: an AVP is an opaque entity with
a vendor id, a type tag, a raw payload, operations to decode its typed value,
and a total encoded length used for header-length bookkeeping; on the wire it
is a 6-octet header (16-bit flags-and-length word whose low 10 bits are the
total AVP length, 16-bit vendor id, 16-bit attribute type) followed by the
payload. -/

/-- Modelled from the spec: the 6-octet AVP header. `flagLen` is the 16-bit
flags-and-length word (low 10 bits = total encoded length). -/
structure avpHeader where
  flagLen : Nat
  vendorID : Nat
  avpType : Nat
deriving DecidableEq, Repr

/-- Modelled from the spec: an AVP is its header plus its raw payload bytes. -/
structure avp where
  header : avpHeader
  payload : List Nat
deriving DecidableEq, Repr

def avp.getType (a : avp) : Nat := a.header.avpType

/-- Modelled from the spec: the AVP's total encoded octet count
(6-octet header plus payload), used for header-length bookkeeping. -/
def avp.totalLen (a : avp) : Nat := 6 + a.payload.length

/-- Modelled from the spec: the wire emission of one AVP — header fields
big-endian, then the raw payload. -/
def avp.encode (a : avp) : List Nat :=
  u16BE a.header.flagLen ++ u16BE a.header.vendorID ++ u16BE a.header.avpType
    ++ a.payload.map (· % 256)

/-- Modelled from the spec: expected payload width of the typed decode for
each attribute type (`none` = variable width: strings and byte blobs). -/
def avpExpectedLen : Nat → Option Nat
  | 0 => some 2  -- Message-Type: 2-octet enumerant
  | 3 => some 4  -- Framing-Capabilities: 32-bit
  | 4 => some 4  -- Bearer-Capabilities: 32-bit
  | 5 => some 8  -- Tie-Breaker: 8 octets
  | 6 => some 2  -- Firmware-Revision: 16-bit
  | 9 => some 2  -- Assigned-Tunnel-ID: 16-bit
  | 10 => some 2 -- Receive-Window-Size: 16-bit
  | _ => none    -- Result-Code, Protocol-Version, names, challenges: blobs

/-- Modelled from the spec: `avp.decode()` succeeds iff the payload width
matches the attribute type's typed width. -/
def avp.decodeOk (a : avp) : Bool :=
  match avpExpectedLen a.getType with
  | some n => a.payload.length == n
  | none => true

/-- Modelled from the spec: `avp.decodeMsgType()` — decode the payload as a
2-octet big-endian message-type enumerant. -/
def avp.decodeMsgType (a : avp) : Except l2tpError Nat :=
  match a.payload with
  | [p0, p1] => .ok (p0 % 256 * 256 + p1 % 256)
  | _ => .error .msgTypeDecode

/-- Modelled from the spec: the recursive worker of `parseAvpBuffer` — while
at least a 6-octet AVP header remains, read the flags-and-length word, take
the low 10 bits as the total AVP length, reject lengths below the header size
or beyond the remaining buffer, slice out the payload and continue; trailing
slack shorter than an AVP header is ignored.
The recursion is structural on `fuel`, an iteration bound: every iteration
consumes at least 6 octets, and the caller passes one more than the buffer
length, so the bound is never hit. -/
def parseAVPBufferAux (fuel : Nat) (b : List Nat) : Except l2tpError (List avp) :=
  match fuel with
  | 0 => .error .outOfFuel
  | fuel + 1 =>
    if b.length < 6 then .ok []
    else
      let flagLen := be16 b 0
      let tl := flagLen % 1024
      if tl < 6 then .error .avpMalformed
      else if b.length < tl then .error .avpMalformed
      else
        match parseAVPBufferAux fuel (b.drop tl) with
        | .error e => .error e
        | .ok rest =>
            .ok (⟨⟨flagLen, be16 b 2, be16 b 4⟩, (b.drop 6).take (tl - 6)⟩ :: rest)

/-- Modelled from the spec: `parseAvpBuffer(bytes) -> (AVPs | error)`; the
AVP subsystem fails rather than returning an empty AVP sequence. -/
def parseAVPBuffer (b : List Nat) : Except l2tpError (List avp) :=
  match parseAVPBufferAux (b.length + 1) b with
  | .error e => .error e
  | .ok [] => .error .noAvpsPresent
  | .ok avps => .ok avps

/-! ## Headers and the v2 control message (from the source) -/

/-- `l2tpCommonHeader`: the fields common to v2 and v3 headers. -/
structure l2tpCommonHeader where
  flagsVer : Nat
  len : Nat
deriving DecidableEq, Repr

/-- `l2tpV2Header`: RFC2661 control message header. -/
structure l2tpV2Header where
  common : l2tpCommonHeader
  tid : Nat
  sid : Nat
  ns : Nat
  nr : Nat
deriving DecidableEq, Repr

/-- `l2tpV3Header`: RFC3931 control message header. -/
structure l2tpV3Header where
  common : l2tpCommonHeader
  ccid : Nat
  ns : Nat
  nr : Nat
deriving DecidableEq, Repr

/-- `ProtocolVersion` values (`ProtocolVersion2` / `ProtocolVersion3`). -/
inductive ProtocolVersion where
  | v2 : ProtocolVersion
  | v3 : ProtocolVersion
deriving DecidableEq, Repr

/-- `(*l2tpCommonHeader).protocolVersion`: dispatch on the low 4 bits of the
flags-and-version word; anything other than 2 or 3 is an illegal version. -/
def protocolVersion (flagsVer : Nat) : Except l2tpError ProtocolVersion :=
  if flagsVer % 16 = 2 then .ok .v2
  else if flagsVer % 16 = 3 then .ok .v3
  else .error .illegalProtocolVersion

/-- `binary.Read` of an `l2tpV2Header` from a byte slice: six big-endian
16-bit fields, failing when fewer than 12 octets are available. -/
def readV2Header (b : List Nat) : Except l2tpError l2tpV2Header :=
  if b.length < 12 then .error .truncatedHeader
  else .ok ⟨⟨be16 b 0, be16 b 2⟩, be16 b 4, be16 b 6, be16 b 8, be16 b 10⟩

/-- `v2ControlMessage`: an RFC2661 control message. -/
structure v2ControlMessage where
  header : l2tpV2Header
  avps : List avp
deriving DecidableEq, Repr

/-- `v3ControlMessage`: an RFC3931 control message. -/
structure v3ControlMessage where
  header : l2tpV3Header
  avps : List avp
deriving DecidableEq, Repr

/-- `bytesToV2CtlMsg`: read the 12-octet header; a message whose length field
claims no payload beyond the header is a ZLB acknowledgement and keeps an
empty AVP sequence; otherwise parse the AVP payload `b[12:hdr.Common.Len]`
and require the first AVP to be the Message-Type AVP.  The `sliceBounds` and
`emptyAvps` constructors stand for the Go slice/index panics on inputs whose
length field exceeds the buffer (unreachable through `parseMessageBuffer`,
whose bounds check runs first). -/
def bytesToV2CtlMsg (b : List Nat) : Except l2tpError v2ControlMessage :=
  match readV2Header b with
  | .error e => .error e
  | .ok hdr =>
    if hdr.common.len > v2HeaderLen then
      if b.length < hdr.common.len then .error .sliceBounds
      else
        match parseAVPBuffer ((b.drop 12).take (hdr.common.len - 12)) with
        | .error e => .error e
        | .ok [] => .error .emptyAvps
        | .ok (a :: rest) =>
            if a.getType ≠ avpTypeMessage then .error .firstAvpNotMessageTypeV2
            else .ok ⟨hdr, a :: rest⟩
    else .ok ⟨hdr, []⟩

/-- `(v2ControlMessage).getType`: a message with no AVPs is a ZLB and reports
the ACK pseudo-type; otherwise the first AVP must be Message-Type (panic
"Invalid L2TPv2 message" otherwise — modelled as `panicNotMessageAvp`) and
its payload must decode as a message-type enumerant (panic "Failed to decode
AVP message type" otherwise — modelled as `panicMsgTypeDecode`). -/
def v2ControlMessage.getType (m : v2ControlMessage) : Except l2tpError Nat :=
  match m.avps with
  | [] => .ok avpMsgTypeAck
  | a :: _ =>
    if a.getType ≠ avpTypeMessage then .error .panicNotMessageAvp
    else
      match a.decodeMsgType with
      | .ok mt => .ok mt
      | .error _ => .error .panicMsgTypeDecode

/-- `binary.Read` of an `l2tpV3Header`: flags-and-version, length, 32-bit
control-connection id, Ns, Nr — 12 octets in total. -/
def readV3Header (b : List Nat) : Except l2tpError l2tpV3Header :=
  if b.length < 12 then .error .truncatedHeader
  else
    .ok ⟨⟨be16 b 0, be16 b 2⟩,
         ((byteAt b 4 * 256 + byteAt b 5) * 256 + byteAt b 6) * 256 + byteAt b 7,
         be16 b 8, be16 b 10⟩

/-- `bytesToV3CtlMsg`: read the 12-octet v3 header, then unconditionally
parse the AVP payload `b[12:hdr.Common.Len]` (no ZLB exception) and require
the first AVP to be the Message-Type AVP.  `sliceBounds` models the Go slice
panic when the length field is below 12 or beyond the buffer; `emptyAvps`
models the `avps[0]` index panic. -/
def bytesToV3CtlMsg (b : List Nat) : Except l2tpError v3ControlMessage :=
  match readV3Header b with
  | .error e => .error e
  | .ok hdr =>
    if hdr.common.len < v3HeaderLen ∨ b.length < hdr.common.len then
      .error .sliceBounds
    else
      match parseAVPBuffer ((b.drop 12).take (hdr.common.len - 12)) with
      | .error e => .error e
      | .ok [] => .error .emptyAvps
      | .ok (a :: rest) =>
          if a.getType ≠ avpTypeMessage then .error .firstAvpNotMessageTypeV3
          else .ok ⟨hdr, a :: rest⟩

/-- `newL2tpV3ControlMessage` (the `l2tp/msg.go` revision): the v3 decode
stub, failing unconditionally with "not implemented". -/
def newL2tpV3ControlMessage (_ : List Nat) : Except l2tpError v3ControlMessage :=
  .error .notImplemented

/-- `controlMessage`: the interface over the two message variants, as a sum. -/
inductive controlMessage where
  | v2 (m : v2ControlMessage) : controlMessage
  | v3 (m : v3ControlMessage) : controlMessage
deriving DecidableEq, Repr

/-- The recursive worker of `parseMessageBuffer`.  `pos` is the
`bytes.Reader` position; the loop runs while at least `controlMessageMinLen`
octets remain.  The common header is read at the recorded cursor (advancing
the reader by 4); the bounds check `int(h.Len-commonHeaderLen) > r.Len()`
uses `uint16` subtraction (underflow wraps).  On success the reader then
seeks `h.Len` octets forward from its position after the common-header read,
so each iteration advances the cursor by `4 + h.Len` in total.
The recursion is structural on `fuel`, an iteration bound: every iteration
advances the cursor by at least 4 octets, and the caller passes one more
than the buffer length, so the bound is never hit. -/
def parseLoop (fuel : Nat) (b : List Nat) (pos : Nat) :
    Except l2tpError (List controlMessage) :=
  match fuel with
  | 0 => .error .outOfFuel
  | fuel + 1 =>
    if b.length - pos < controlMessageMinLen then .ok []
    else
      let flagsVer := be16 b pos
      let len := be16 b (pos + 2)
      if (len + 65536 - commonHeaderLen) % 65536 > b.length - pos - 4 then
        .error (.malformedHeader len (b.length - pos - 4))
      else
        match protocolVersion flagsVer with
        | .error e => .error e
        | .ok ver =>
          match ver with
          | .v2 =>
            match bytesToV2CtlMsg ((b.drop pos).take len) with
            | .error e => .error e
            | .ok m =>
              match parseLoop fuel b (pos + 4 + len) with
              | .error e => .error e
              | .ok rest => .ok (.v2 m :: rest)
          | .v3 =>
            match bytesToV3CtlMsg ((b.drop pos).take len) with
            | .error e => .error e
            | .ok m =>
              match parseLoop fuel b (pos + 4 + len) with
              | .error e => .error e
              | .ok rest => .ok (.v3 m :: rest)

/-- `parseMessageBuffer`: split a received byte buffer into the control
messages it frames, starting from reader position 0. -/
def parseMessageBuffer (b : List Nat) : Except l2tpError (List controlMessage) :=
  parseLoop (b.length + 1) b 0

/-! ## Encode path (from the source) -/

/-- `binary.Write` of an `l2tpV2Header`: six big-endian 16-bit words. -/
def encodeV2Header (h : l2tpV2Header) : List Nat :=
  u16BE h.common.flagsVer ++ u16BE h.common.len ++ u16BE h.tid ++ u16BE h.sid
    ++ u16BE h.ns ++ u16BE h.nr

/-- `(*v2ControlMessage).toBytes`: emit the header, then each AVP's header
and payload in order.  `binary.Write` to an in-memory `bytes.Buffer` cannot
fail, so the encoding is total. -/
def v2ControlMessage.toBytes (m : v2ControlMessage) : List Nat :=
  encodeV2Header m.header ++ (m.avps.map avp.encode).flatten

/-- `(*v2ControlMessage).appendAvp`: push the AVP and bump the header's
16-bit length field by the AVP's total encoded length (`uint16` cast of the
Go `int`, then wrapping `uint16` addition). -/
def v2ControlMessage.appendAvp (m : v2ControlMessage) (a : avp) : v2ControlMessage :=
  { m with
    avps := m.avps ++ [a]
    header := { m.header with
      common := { m.header.common with
        len := (m.header.common.len + a.totalLen % 65536) % 65536 } } }

/-- `(*v3ControlMessage).appendAvp`: identical bookkeeping on the v3 header. -/
def v3ControlMessage.appendAvp (m : v3ControlMessage) (a : avp) : v3ControlMessage :=
  { m with
    avps := m.avps ++ [a]
    header := { m.header with
      common := { m.header.common with
        len := (m.header.common.len + a.totalLen % 65536) % 65536 } } }

/-! ## Message specifications and validation (from the source) -/

/-- `avpSpec` classification tags. -/
inductive avpSpec where
  | mustExist : avpSpec
  | mayExist : avpSpec
deriving DecidableEq, Repr

/-- `msgSpec`: the per-message-type AVP classification map, embedded as an
association list in the source's insertion order (the Go map's iteration
order is unspecified; success/failure of validation does not depend on it). -/
abbrev msgSpec := List (Nat × avpSpec)

/-- `(*msgSpec).hasAvp`: look a type up in the spec. -/
def hasAvp (spec : msgSpec) (t : Nat) : Option avpSpec :=
  (spec.find? (fun p => p.1 == t)).map Prod.snd

/-- `v2SccrqMsgSpec` (RFC2661 §6.1). -/
def v2SccrqMsgSpec : msgSpec :=
  [(avpTypeMessage, .mustExist), (avpTypeProtocolVersion, .mustExist),
   (avpTypeHostName, .mustExist), (avpTypeFramingCap, .mustExist),
   (avpTypeTunnelID, .mustExist),
   (avpTypeBearerCap, .mayExist), (avpTypeRxWindowSize, .mayExist),
   (avpTypeChallenge, .mayExist), (avpTypeTiebreaker, .mayExist),
   (avpTypeFirmwareRevision, .mayExist), (avpTypeVendorName, .mayExist)]

/-- `v2SccrpMsgSpec` (RFC2661 §6.2). -/
def v2SccrpMsgSpec : msgSpec :=
  [(avpTypeMessage, .mustExist), (avpTypeProtocolVersion, .mustExist),
   (avpTypeFramingCap, .mustExist), (avpTypeHostName, .mustExist),
   (avpTypeTunnelID, .mustExist),
   (avpTypeBearerCap, .mayExist), (avpTypeRxWindowSize, .mayExist),
   (avpTypeChallenge, .mayExist), (avpTypeChallengeResponse, .mayExist),
   (avpTypeTiebreaker, .mayExist), (avpTypeFirmwareRevision, .mayExist),
   (avpTypeVendorName, .mayExist)]

/-- `v2ScccnMsgSpec` (RFC2661 §6.3). -/
def v2ScccnMsgSpec : msgSpec :=
  [(avpTypeMessage, .mustExist), (avpTypeChallengeResponse, .mayExist)]

/-- `v2StopccnMsgSpec` (RFC2661 §6.4). -/
def v2StopccnMsgSpec : msgSpec :=
  [(avpTypeMessage, .mustExist), (avpTypeTunnelID, .mustExist),
   (avpTypeResultCode, .mustExist)]

/-- `v2HelloMsgSpec` (RFC2661 §6.5). -/
def v2HelloMsgSpec : msgSpec :=
  [(avpTypeMessage, .mustExist)]

/-- `getV2MsgSpec`: dispatch a message type to its spec, failing with
"no specification for v2 message" on anything else. -/
def getV2MsgSpec (t : Nat) : Except l2tpError msgSpec :=
  if t = avpMsgTypeSccrq then .ok v2SccrqMsgSpec
  else if t = avpMsgTypeSccrp then .ok v2SccrpMsgSpec
  else if t = avpMsgTypeScccn then .ok v2ScccnMsgSpec
  else if t = avpMsgTypeStopccn then .ok v2StopccnMsgSpec
  else if t = avpMsgTypeHello then .ok v2HelloMsgSpec
  else .error (.noSpecForMessage t)

/-- The AVP walk of `validate`: for each AVP in order, fail with
"unexpected AVP" if its type is not in the spec, record MustExist types as
seen, and fail with the wrapped decode error if the typed decode fails.
Returns the list of MustExist types seen. -/
def validateWalk (spec : msgSpec) (t : Nat) :
    List avp → List Nat → Except l2tpError (List Nat)
  | [], seen => .ok seen
  | a :: rest, seen =>
    match hasAvp spec a.getType with
    | none => .error (.unexpectedAvp a.getType t)
    | some cls =>
      let seen' := if cls = .mustExist then a.getType :: seen else seen
      if a.decodeOk then validateWalk spec t rest seen'
      else .error (.avpDecodeFailed a.getType t)

/-- The post-walk check of `validate`: fail with "missing mandatory AVP" on
a MustExist type of the spec never marked seen.  The Go loop ranges over the
`seen` map, whose iteration order is randomized; this instance fixes the
spec insertion order, which is one admissible order (see `checkSeenO` for
the order-parameterized form and `checkSeen_eq_checkSeenO` relating them).
Which key is reported is order-dependent only when two or more MustExist
types are unseen. -/
def checkSeen (spec : msgSpec) (t : Nat) (seen : List Nat) : Except l2tpError Unit :=
  match spec.find? (fun p => p.2 == avpSpec.mustExist && !(seen.contains p.1)) with
  | some p => .error (.missingMandatoryAvp p.1 t)
  | none => .ok ()

/-- `(*v2ControlMessage).validate`: look up the spec for the derived message
type (a `getType` panic propagates), walk the AVP sequence, then check that
every MustExist type was seen. -/
def v2ControlMessage.validate (m : v2ControlMessage) : Except l2tpError Unit :=
  match m.getType with
  | .error e => .error e
  | .ok t =>
    match getV2MsgSpec t with
    | .error e => .error e
    | .ok spec =>
      match validateWalk spec t m.avps [] with
      | .error e => .error e
      | .ok seen => checkSeen spec t seen

/-- `(*msgSpec).must()`: the MustExist attribute types of a spec — the key
set of `validate`'s `seen` map — listed in spec insertion order. -/
def mustTypes (spec : msgSpec) : List Nat :=
  (spec.filter (fun p => p.2 == avpSpec.mustExist)).map Prod.fst

/-- The post-walk check of `validate` with the `seen` map's iteration order
made explicit: `for at, ok := range seen` visits the map's keys in an order
the Go runtime chooses anew on every `range` statement, and the loop returns
the missing-mandatory-AVP error for the first visited key whose value is
false.  `order` is the visited key sequence. -/
def checkSeenO (order : List Nat) (t : Nat) (seen : List Nat) : Except l2tpError Unit :=
  match order.find? (fun k => !(seen.contains k)) with
  | some k => .error (.missingMandatoryAvp k t)
  | none => .ok ()

/-- `(*v2ControlMessage).validate` with the final loop's map iteration order
explicit.  Only that last step depends on the order: spec lookup and the AVP
walk are deterministic. -/
def v2ControlMessage.validateWithOrder (m : v2ControlMessage) (order : List Nat) :
    Except l2tpError Unit :=
  match m.getType with
  | .error e => .error e
  | .ok t =>
    match getV2MsgSpec t with
    | .error e => .error e
    | .ok spec =>
      match validateWalk spec t m.avps [] with
      | .error e => .error e
      | .ok seen => checkSeenO order t seen

/-- The key set of the `seen` map `validate` builds for `m` — when the final
loop is reached at all. -/
def seenKeys (m : v2ControlMessage) : Option (List Nat) :=
  match m.getType with
  | .error _ => none
  | .ok t =>
    match getV2MsgSpec t with
    | .error _ => none
    | .ok spec => some (mustTypes spec)

/-- An iteration order the Go runtime can produce for `validate`'s `seen`
map: any permutation of the map's key set (unconstrained when the final loop
is never reached, where the result does not depend on it). -/
def admissibleOrder (m : v2ControlMessage) (order : List Nat) : Prop :=
  match seenKeys m with
  | none => True
  | some ks => order.Perm ks

instance (m : v2ControlMessage) (o : List Nat) : Decidable (admissibleOrder m o) := by
  unfold admissibleOrder
  cases seenKeys m with
  | none => exact .isTrue trivial
  | some ks => exact inferInstanceAs (Decidable (o.Perm ks))

/-! ## Builders (from the source; the AVP constructor and the tunnel
configuration are modelled from the spec) -/

/-- Modelled from the spec: IETF vendor id 0. -/
def vendorIDIetf : Nat := 0

/-- `v2TidSidMax`: the 16-bit bound on v2 tunnel/session ids (the constant
itself lives outside the given sources; modelled from the spec's "16-bit v2
range"). -/
def v2TidSidMax : Nat := 65535

/-- Modelled from the spec: a tunnel/connection configuration carrying the
locally-assigned tunnel id and the peer's tunnel id (32-bit `ControlConnID`
values). -/
structure TunnelConfig where
  tunnelID : Nat
  peerTunnelID : Nat
deriving DecidableEq, Repr

/-- The value argument of `newAvp`, one constructor per Go dynamic type used
by the builders. -/
inductive avpDataIn where
  | u16 (n : Nat) : avpDataIn
  | u32 (n : Nat) : avpDataIn
  | str (s : List Nat) : avpDataIn
  | bytes (l : List Nat) : avpDataIn
  | msgT (n : Nat) : avpDataIn
  | rc (n : Nat) : avpDataIn
deriving DecidableEq, Repr

/-- Modelled from the spec: the wire payload of each typed AVP value. -/
def encodeAvpDataIn : avpDataIn → List Nat
  | .u16 n => u16BE n
  | .u32 n => [n / 16777216 % 256, n / 65536 % 256, n / 256 % 256, n % 256]
  | .str s => s.map (· % 256)
  | .bytes l => l.map (· % 256)
  | .msgT n => u16BE n
  | .rc n => u16BE n

/-- Modelled from the spec: `newAvp(vendorId, type, value) -> (AVP | error)`
builds the AVP header (mandatory bit set, low 10 bits the total encoded
length) over the encoded payload, failing when the payload exceeds the
10-bit length field. -/
def newAvp (vid t : Nat) (d : avpDataIn) : Except l2tpError avp :=
  let p := encodeAvpDataIn d
  if 6 + p.length ≥ 1024 then .error .avpTooBig
  else .ok ⟨⟨32768 + (6 + p.length), vid % 65536, t % 65536⟩, p⟩

/-- `avpsLengthBytes`: total encoded length of an AVP list. -/
def avpsLengthBytes (avps : List avp) : Nat :=
  (avps.map avp.totalLen).sum

/-- `newL2tpV2MessageHeader`: flags-and-version `0xc802`, length the `uint16`
cast of header-plus-payload size. -/
def newL2tpV2MessageHeader (tid sid ns nr payloadBytes : Nat) : l2tpV2Header :=
  ⟨⟨0xc802, (v2HeaderLen + payloadBytes) % 65536⟩, tid, sid, ns, nr⟩

/-- `newV2ControlMessage`: reject tunnel/session ids beyond the 16-bit v2
range before building the header. -/
def newV2ControlMessage (tid sid : Nat) (avps : List avp) :
    Except l2tpError v2ControlMessage :=
  if tid > v2TidSidMax then .error (.tidOutOfRange tid)
  else if sid > v2TidSidMax then .error (.sidOutOfRange sid)
  else .ok ⟨newL2tpV2MessageHeader (tid % 65536) (sid % 65536) 0 0
              (avpsLengthBytes avps), avps⟩

/-- The append loop of `buildV2TunnelMsg`: create each AVP (wrapping a
creation failure with the AVP type) and append it to the message. -/
def appendAvpIns (m : v2ControlMessage) :
    List (Nat × avpDataIn) → Except l2tpError v2ControlMessage
  | [] => .ok m
  | (t, d) :: rest =>
    match newAvp vendorIDIetf t d with
    | .error _ => .error (.avpCreateFailed t)
    | .ok a => appendAvpIns (m.appendAvp a) rest

/-- `buildV2TunnelMsg`: start from an empty message addressed to the peer
tunnel id (session id 0, sequence numbers 0) and append the given AVPs in
order. -/
def buildV2TunnelMsg (ptid : Nat) (ins : List (Nat × avpDataIn)) :
    Except l2tpError v2ControlMessage :=
  match newV2ControlMessage ptid 0 [] with
  | .error e => .error e
  | .ok m => appendAvpIns m ins

/-- `newV2Stopccn`: Message-Type, the `uint16`-cast locally-assigned tunnel
id, and the result code, addressed to the peer tunnel id. -/
def newV2Stopccn (rc : Nat) (cfg : TunnelConfig) : Except l2tpError v2ControlMessage :=
  buildV2TunnelMsg cfg.peerTunnelID
    [(avpTypeMessage, .msgT avpMsgTypeStopccn),
     (avpTypeTunnelID, .u16 (cfg.tunnelID % 65536)),
     (avpTypeResultCode, .rc rc)]

/-- `newV2Hello`: a Hello carries only the Message-Type AVP. -/
def newV2Hello (cfg : TunnelConfig) : Except l2tpError v2ControlMessage :=
  buildV2TunnelMsg cfg.peerTunnelID [(avpTypeMessage, .msgT avpMsgTypeHello)]

/-! ## Representation invariants

A Go `avp`/`l2tpV2Header` value carries `uint16` fields and `[]byte`
payloads; in the `Nat`-based embedding those bounds, and the AVP-header
length bookkeeping maintained by `newAvp`, become explicit predicates. -/

/-- A well-formed AVP: 16-bit header fields, payload of octets, and the
10-bit length bits of the flags-and-length word equal to the total encoded
length, as `newAvp` constructs and the wire parser requires. -/
def avpWF (a : avp) : Prop :=
  a.header.flagLen < 65536 ∧ a.header.vendorID < 65536 ∧
  a.header.avpType < 65536 ∧ a.header.flagLen % 1024 = a.totalLen ∧
  ∀ x ∈ a.payload, x < 256

instance (a : avp) : Decidable (avpWF a) := by
  unfold avpWF; infer_instance

/-- A well-formed v2 header: six 16-bit fields. -/
def v2HeaderWF (h : l2tpV2Header) : Prop :=
  h.common.flagsVer < 65536 ∧ h.common.len < 65536 ∧ h.tid < 65536 ∧
  h.sid < 65536 ∧ h.ns < 65536 ∧ h.nr < 65536

instance (h : l2tpV2Header) : Decidable (v2HeaderWF h) := by
  unfold v2HeaderWF; infer_instance

/-- A well-formed v2 control message: well-formed header and AVPs. -/
def v2MsgWF (m : v2ControlMessage) : Prop :=
  v2HeaderWF m.header ∧ ∀ a ∈ m.avps, avpWF a

instance (m : v2ControlMessage) : Decidable (v2MsgWF m) := by
  unfold v2MsgWF; infer_instance

/-- The success condition the specification states for `validate()`: a spec
is registered for the derived message type, every AVP's type is listed in it
and its typed value decodes, and every MustExist type of the spec occurs
among the AVPs.  (Stated from the spec's words, to be compared with the
source's `validate`.) -/
def validateSpecOk (m : v2ControlMessage) : Prop :=
  ∃ t spec, m.getType = .ok t ∧ getV2MsgSpec t = .ok spec ∧
    (∀ a ∈ m.avps, (hasAvp spec a.getType).isSome ∧ a.decodeOk = true) ∧
    (∀ p ∈ spec, p.2 = avpSpec.mustExist → ∃ a ∈ m.avps, a.getType = p.1)

/-! ## Concrete test vectors -/

/-- A framed v2 Hello message: 12-octet header with length 20, followed by a
Message-Type AVP (6-octet AVP header, 2-octet enumerant payload 6 = Hello). -/
def helloWire : List Nat :=
  [0xc8, 0x02, 0, 20, 0, 0, 0, 0, 0, 0, 0, 0,
   0x80, 0x08, 0, 0, 0, 0, 0, 6]

/-- A framed v2 zero-length-body acknowledgement: a bare 12-octet header
whose length field is 12. -/
def zlbWire : List Nat :=
  [0xc8, 0x02, 0, 12, 0, 1, 0, 0, 0, 0, 0, 1]

/-- The two-message buffer of the spec's concrete scenario: a Hello
immediately followed by a zero-length-body acknowledgement. -/
def helloZlbWire : List Nat := helloWire ++ zlbWire

/-- The decode of the Hello frame. -/
def helloMsg : v2ControlMessage :=
  ⟨⟨⟨0xc802, 20⟩, 0, 0, 0, 0⟩, [⟨⟨0x8008, 0, 0⟩, [0, 6]⟩]⟩

/-- A v2 frame whose only AVP is of type Message but whose payload is a
single octet, so it cannot decode as a 2-octet message-type enumerant:
header length 19, AVP total length 7. -/
def shortMsgTypeWire : List Nat :=
  [0xc8, 0x02, 0, 19, 0, 0, 0, 0, 0, 0, 0, 0,
   0x80, 0x07, 0, 0, 0, 0, 9]

/-- The decode of `shortMsgTypeWire`. -/
def shortMsgTypeMsg : v2ControlMessage :=
  ⟨⟨⟨0xc802, 19⟩, 0, 0, 0, 0⟩, [⟨⟨0x8007, 0, 0⟩, [9]⟩]⟩

/-- A 12-octet buffer with version nibble 5 and length field 13: the length
field exceeds the buffer bounds, so the bounds check fires before the
version check. -/
def badVersionOverlongWire : List Nat :=
  [0x00, 0x05, 0, 13, 0, 0, 0, 0, 0, 0, 0, 0]

/-- A 12-octet buffer with version nibble 5 and in-bounds length field 12. -/
def badVersionWire : List Nat :=
  [0x00, 0x05, 0, 12, 0, 0, 0, 0, 0, 0, 0, 0]

/-- A well-formed message whose first (and only) AVP is Host-Name rather
than Message-Type; its header length field is consistent (12 + 15). -/
def hostNameFirstMsg : v2ControlMessage :=
  ⟨⟨⟨0xc802, 27⟩, 0, 0, 0, 0⟩,
   [⟨⟨0x800f, 0, 7⟩, [114, 105, 110, 99, 101, 119, 105, 110, 100]⟩]⟩

/-- The Message-Type AVP carrying enumerant `v`. -/
def msgTypeAvp (v : Nat) : avp := ⟨⟨0x8008, 0, 0⟩, [0, v]⟩

/-- A Protocol-Version AVP with payload `{1, 0}`. -/
def protoVerAvp : avp := ⟨⟨0x8008, 0, 2⟩, [1, 0]⟩

/-- A Host-Name AVP with payload "rincewind". -/
def hostNameAvp : avp := ⟨⟨0x800f, 0, 7⟩, [114, 105, 110, 99, 101, 119, 105, 110, 100]⟩

/-- A Framing-Capabilities AVP with payload 0x00000003. -/
def framingCapAvp : avp := ⟨⟨0x800a, 0, 3⟩, [0, 0, 0, 3]⟩

/-- An Assigned-Tunnel-ID AVP with payload 1. -/
def tunnelIDAvp : avp := ⟨⟨0x8008, 0, 9⟩, [0, 1]⟩

/-- A complete SCCRQ message (Message-Type, Protocol-Version, Host-Name,
Framing-Capabilities, Tunnel-ID). -/
def sccrqMsg : v2ControlMessage :=
  ⟨⟨⟨0xc802, 49⟩, 0, 0, 0, 0⟩,
   [msgTypeAvp avpMsgTypeSccrq, protoVerAvp, hostNameAvp, framingCapAvp, tunnelIDAvp]⟩

/-- The SCCRQ with the Tunnel-ID AVP removed and the length field adjusted. -/
def sccrqNoTidMsg : v2ControlMessage :=
  ⟨⟨⟨0xc802, 41⟩, 0, 0, 0, 0⟩,
   [msgTypeAvp avpMsgTypeSccrq, protoVerAvp, hostNameAvp, framingCapAvp]⟩

/-- An SCCRQ carrying an AVP type not listed in the SCCRQ spec
(Challenge-Response, type 13). -/
def sccrqUnexpectedMsg : v2ControlMessage :=
  ⟨⟨⟨0xc802, 28⟩, 0, 0, 0, 0⟩,
   [msgTypeAvp avpMsgTypeSccrq, ⟨⟨0x8008, 0, 13⟩, [0, 0]⟩]⟩

/-- An SCCRQ whose Framing-Capabilities AVP has a 2-octet payload, which the
typed decode (32-bit) rejects. -/
def sccrqBadFramingMsg : v2ControlMessage :=
  ⟨⟨⟨0xc802, 28⟩, 0, 0, 0, 0⟩,
   [msgTypeAvp avpMsgTypeSccrq, ⟨⟨0x8008, 0, 3⟩, [0, 3]⟩]⟩

/-- A StopCCN-typed message carrying only the Message-Type AVP, so two of
its three mandatory AVPs (Tunnel-ID and Result-Code) are unseen. -/
def stopccnMissingTwoMsg : v2ControlMessage :=
  ⟨⟨⟨0xc802, 20⟩, 0, 0, 0, 0⟩, [msgTypeAvp avpMsgTypeStopccn]⟩

/-- A framed v3 control message: 12-octet v3 header (version nibble 3,
length 20, control-connection id 5) followed by a Message-Type AVP. -/
def v3Wire : List Nat :=
  [0xc8, 0x03, 0, 20, 0, 0, 0, 5, 0, 0, 0, 0,
   0x80, 0x08, 0, 0, 0, 0, 0, 6]

/-- The decode of `v3Wire`. -/
def v3WireMsg : v3ControlMessage :=
  ⟨⟨⟨0xc803, 20⟩, 5, 0, 0⟩, [⟨⟨0x8008, 0, 0⟩, [0, 6]⟩]⟩

/-- The StopCCN built from a configuration whose locally-assigned tunnel id
is 70000: the id is truncated to 70000 % 65536 = 4464 = 0x1170 in the
Tunnel-ID AVP and construction succeeds. -/
def stopccnTruncatedMsg : v2ControlMessage :=
  ⟨⟨⟨0xc802, 36⟩, 1, 0, 0, 0⟩,
   [⟨⟨0x8008, 0, 0⟩, [0, 4]⟩, ⟨⟨0x8008, 0, 9⟩, [17, 112]⟩, ⟨⟨0x8008, 0, 1⟩, [0, 1]⟩]⟩

/-! ## Round-trip lemmas (encode then decode) -/

theorem u16BE_length (n : Nat) : (u16BE n).length = 2 := rfl

theorem avp_encode_length (a : avp) : a.encode.length = a.totalLen := by
  simp [avp.encode, u16BE, avp.totalLen]; omega

theorem flatten_encode_length (l : List avp) :
    ((l.map avp.encode).flatten).length = avpsLengthBytes l := by
  induction l with
  | nil => rfl
  | cons a t ih =>
    simp only [List.map_cons, List.flatten_cons, List.length_append,
      avp_encode_length, avpsLengthBytes, List.sum_cons] at *
    omega

theorem readV2Header_encode (h : l2tpV2Header) (rest : List Nat)
    (hwf : v2HeaderWF h) :
    readV2Header (encodeV2Header h ++ rest) = .ok h := by
  obtain ⟨⟨fv, ln⟩, tid, sid, ns, nr⟩ := h
  obtain ⟨h1, h2, h3, h4, h5, h6⟩ := hwf
  dsimp only at h1 h2 h3 h4 h5 h6
  unfold readV2Header
  rw [if_neg (by simp [encodeV2Header, u16BE])]
  simp only [encodeV2Header, u16BE, List.cons_append, List.nil_append]
  simp [be16, byteAt]
  omega

theorem avp_encode_cons (a : avp) (R : List Nat) :
    a.encode ++ R = a.header.flagLen / 256 % 256 :: a.header.flagLen % 256 ::
      a.header.vendorID / 256 % 256 :: a.header.vendorID % 256 ::
      a.header.avpType / 256 % 256 :: a.header.avpType % 256 ::
      (a.payload.map (· % 256) ++ R) := by
  simp [avp.encode, u16BE]

theorem map_mod_self (p : List Nat) (hp : ∀ x ∈ p, x < 256) :
    p.map (· % 256) = p := by
  conv_rhs => rw [← List.map_id p]
  exact List.map_congr_left fun x hx => Nat.mod_eq_of_lt (hp x hx)

theorem encodeV2Header_drop (h : l2tpV2Header) (rest : List Nat) :
    (encodeV2Header h ++ rest).drop 12 = rest := by
  simp [encodeV2Header, u16BE]

/-- One iteration of the AVP buffer parse consumes exactly one well-formed
encoded AVP. -/
theorem parseAux_encode_step (a : avp) (R : List Nat) (f : Nat) (hw : avpWF a) :
    parseAVPBufferAux (f + 1) (a.encode ++ R) =
      match parseAVPBufferAux f R with
      | .error e => .error e
      | .ok rest => .ok (a :: rest) := by
  obtain ⟨h1, h2, h3, h4, h5⟩ := hw
  have htl : a.header.flagLen % 1024 = 6 + a.payload.length := by
    simpa [avp.totalLen] using h4
  have hlen : (a.encode ++ R).length = 6 + a.payload.length + R.length := by
    simp [avp_encode_length, avp.totalLen]
  have hfl : be16 (a.encode ++ R) 0 = a.header.flagLen := by
    rw [avp_encode_cons]; simp [be16, byteAt]; omega
  have hvid : be16 (a.encode ++ R) 2 = a.header.vendorID := by
    rw [avp_encode_cons]; simp [be16, byteAt]; omega
  have hty : be16 (a.encode ++ R) 4 = a.header.avpType := by
    rw [avp_encode_cons]; simp [be16, byteAt]; omega
  have hdrop : (a.encode ++ R).drop (a.header.flagLen % 1024) = R := by
    rw [htl, show 6 + a.payload.length = a.encode.length from by
      rw [avp_encode_length]; rfl]
    exact List.drop_left _ _
  have hpay : ((a.encode ++ R).drop 6).take (a.header.flagLen % 1024 - 6) = a.payload := by
    rw [htl, avp_encode_cons]
    simp only [List.drop_succ_cons, List.drop_zero]
    rw [show 6 + a.payload.length - 6 = a.payload.length from by omega]
    rw [← List.length_map a.payload (· % 256), List.take_left]
    exact map_mod_self a.payload h5
  simp only [parseAVPBufferAux, hfl]
  rw [if_neg (by omega)]
  rw [if_neg (by omega)]
  rw [if_neg (by omega)]
  rw [hdrop, hvid, hty, hpay]

/-- The AVP buffer parse worker inverts the encoding of a well-formed AVP
sequence (for any sufficient iteration bound). -/
theorem parseAux_encode (l : List avp) (hw : ∀ a ∈ l, avpWF a) (f : Nat)
    (hf : ((l.map avp.encode).flatten).length < f) :
    parseAVPBufferAux f ((l.map avp.encode).flatten) = .ok l := by
  induction l generalizing f with
  | nil =>
    cases f with
    | zero => omega
    | succ f => simp [parseAVPBufferAux]
  | cons a t ih =>
    cases f with
    | zero => omega
    | succ f =>
      simp only [List.map_cons, List.flatten_cons] at hf ⊢
      rw [parseAux_encode_step a _ f (hw a (by simp))]
      rw [ih (fun x hx => hw x (by simp [hx])) f (by
        have h6 : 6 ≤ a.encode.length := by
          rw [avp_encode_length]; unfold avp.totalLen; omega
        simp only [List.length_append] at hf
        omega)]

/-- `parseAvpBuffer` inverts the encoding of a nonempty well-formed AVP
sequence. -/
theorem parseAVPBuffer_encode (l : List avp) (hne : l ≠ []) (hw : ∀ a ∈ l, avpWF a) :
    parseAVPBuffer ((l.map avp.encode).flatten) = .ok l := by
  unfold parseAVPBuffer
  rw [parseAux_encode l hw _ (by omega)]
  cases l with
  | nil => exact absurd rfl hne
  | cons a t => rfl

/-! ## Validation lemmas -/

/-- The AVP walk succeeds (with some seen-set) exactly when every AVP's type
is listed in the spec and its typed decode succeeds. -/
theorem validateWalk_ok_iff (spec : msgSpec) (t : Nat) :
    ∀ (avps : List avp) (seen : List Nat),
    (∃ s, validateWalk spec t avps seen = .ok s) ↔
      ∀ a ∈ avps, (hasAvp spec a.getType).isSome ∧ a.decodeOk = true := by
  intro avps
  induction avps with
  | nil => intro seen; simp [validateWalk]
  | cons a rest ih =>
    intro seen
    cases hha : hasAvp spec a.getType with
    | none => simp [validateWalk, hha, List.forall_mem_cons]
    | some cls =>
      by_cases hd : a.decodeOk = true
      · simp [validateWalk, hha, hd, List.forall_mem_cons, ih]
      · simp [validateWalk, hha, hd, List.forall_mem_cons]

/-- The seen-set produced by a successful AVP walk holds exactly the types
marked before the walk plus the MustExist types occurring among the AVPs. -/
theorem validateWalk_seen (spec : msgSpec) (t : Nat) :
    ∀ (avps : List avp) (seen s : List Nat),
      validateWalk spec t avps seen = .ok s →
      ∀ x, x ∈ s ↔ (x ∈ seen ∨
        ∃ a ∈ avps, a.getType = x ∧ hasAvp spec x = some .mustExist) := by
  intro avps
  induction avps with
  | nil =>
    intro seen s h x
    simp only [validateWalk] at h
    injection h with h'
    subst h'
    simp
  | cons a rest ih =>
    intro seen s h x
    unfold validateWalk at h
    cases hha : hasAvp spec a.getType with
    | none => rw [hha] at h; cases h
    | some cls =>
      rw [hha] at h
      dsimp only at h
      by_cases hd : a.decodeOk = true
      · rw [if_pos hd] at h
        rw [ih _ s h x]
        by_cases hc : cls = .mustExist
        · subst hc
          rw [if_pos rfl] at h ⊢
          constructor
          · rintro (hxs | hE)
            · rcases List.mem_cons.mp hxs with hxa | hxs'
              · subst hxa
                exact Or.inr ⟨a, List.mem_cons_self a rest, rfl, hha⟩
              · exact Or.inl hxs'
            · rcases hE with ⟨y, hy, hyx, hym⟩
              exact Or.inr ⟨y, List.mem_cons_of_mem a hy, hyx, hym⟩
          · rintro (hxs | ⟨y, hy, hyx, hym⟩)
            · exact Or.inl (List.mem_cons_of_mem _ hxs)
            · rcases List.mem_cons.mp hy with hya | hyr
              · subst hya
                exact Or.inl (by rw [← hyx]; exact List.mem_cons_self _ _)
              · exact Or.inr ⟨y, hyr, hyx, hym⟩
        · rw [if_neg hc] at h ⊢
          constructor
          · rintro (hxs | ⟨y, hy, hyx, hym⟩)
            · exact Or.inl hxs
            · exact Or.inr ⟨y, List.mem_cons_of_mem a hy, hyx, hym⟩
          · rintro (hxs | ⟨y, hy, hyx, hym⟩)
            · exact Or.inl hxs
            · rcases List.mem_cons.mp hy with hya | hyr
              · subst hya
                rw [hyx] at hha
                rw [hha] at hym
                injection hym with hcc
                exact absurd hcc hc
              · exact Or.inr ⟨y, hyr, hyx, hym⟩
      · rw [if_neg hd] at h; cases h

/-- The post-walk check succeeds exactly when every MustExist type of the
spec is in the seen-set. -/
theorem checkSeen_ok_iff (spec : msgSpec) (t : Nat) (seen : List Nat) :
    checkSeen spec t seen = .ok () ↔
      ∀ p ∈ spec, p.2 = avpSpec.mustExist → p.1 ∈ seen := by
  unfold checkSeen
  cases hf : spec.find? (fun p => p.2 == avpSpec.mustExist && !(seen.contains p.1)) with
  | none =>
    constructor
    · intro _ p hp hmust
      have hnp := List.find?_eq_none.mp hf p hp
      simp only [Bool.and_eq_true, Bool.not_eq_true', beq_iff_eq, not_and] at hnp
      have := hnp hmust
      simpa using this
    · intro _; rfl
  | some p =>
    have hmem := List.mem_of_find?_eq_some hf
    have hpred := List.find?_some hf
    simp only [Bool.and_eq_true, Bool.not_eq_true', beq_iff_eq] at hpred
    constructor
    · intro h; cases h
    · intro hall
      exfalso
      obtain ⟨h1, h2⟩ := hpred
      have := hall p hmem h1
      exact absurd this (by simpa using h2)

/-- Each registered message spec maps its MustExist entries back to
MustExist under lookup (the five tables are duplicate-free). -/
theorem getV2MsgSpec_must_hasAvp (t : Nat) (spec : msgSpec)
    (h : getV2MsgSpec t = .ok spec) :
    ∀ p ∈ spec, p.2 = avpSpec.mustExist → hasAvp spec p.1 = some avpSpec.mustExist := by
  unfold getV2MsgSpec at h
  split_ifs at h
  all_goals injection h with h'
  all_goals (subst h'; decide)

/-- `validate` succeeds exactly under the spec's stated success condition. -/
theorem validate_ok_iff_spec (m : v2ControlMessage) :
    m.validate = .ok () ↔ validateSpecOk m := by
  unfold v2ControlMessage.validate validateSpecOk
  cases hgt : m.getType with
  | error e => simp
  | ok t =>
    dsimp only
    cases hsp : getV2MsgSpec t with
    | error e => simp [hsp]
    | ok spec =>
      dsimp only
      constructor
      · intro h
        cases hw : validateWalk spec t m.avps [] with
        | error e => rw [hw] at h; cases h
        | ok seen =>
          rw [hw] at h
          refine ⟨t, spec, rfl, hsp, ?_, ?_⟩
          · exact (validateWalk_ok_iff spec t m.avps []).mp ⟨seen, hw⟩
          · intro p hp hmust
            have hseen := (checkSeen_ok_iff spec t seen).mp h p hp hmust
            have hmem := (validateWalk_seen spec t m.avps [] seen hw p.1).mp hseen
            rcases hmem with h' | ⟨a, ha, hax, _⟩
            · cases h'
            · exact ⟨a, ha, hax⟩
      · rintro ⟨t', spec', ht', hsp', hlist, hmust⟩
        injection ht' with ht''
        subst ht''
        rw [hsp] at hsp'
        injection hsp' with hs''
        subst hs''
        obtain ⟨seen, hw⟩ := (validateWalk_ok_iff spec t m.avps []).mpr hlist
        rw [hw]
        apply (checkSeen_ok_iff spec t seen).mpr
        intro p hp hmustp
        apply (validateWalk_seen spec t m.avps [] seen hw p.1).mpr
        obtain ⟨a, ha, hax⟩ := hmust p hp hmustp
        exact Or.inr ⟨a, ha, hax, getV2MsgSpec_must_hasAvp t spec hsp p hp hmustp⟩

/-! ## C1: the two-message buffer scenario -/

/-- C1: parsing the buffer that frames a Hello immediately followed by a
zero-length-body acknowledgement returns only the Hello.  The loop's
relative seek of `header.length` octets runs after the 4-octet common header
was already consumed, so the cursor lands at offset 24 instead of 20 and the
second frame — which decodes fine on its own, as the third conjunct shows —
is never reached.  This contradicts the claimed two-message result and the
claimed cursor position of exactly `header.length` past the message start. -/
theorem two_message_buffer_parses_first_only :
    parseMessageBuffer helloZlbWire = .ok [.v2 helloMsg] ∧
    helloMsg.getType = .ok avpMsgTypeHello ∧
    bytesToV2CtlMsg (helloZlbWire.drop 20) = .ok ⟨⟨⟨0xc802, 12⟩, 1, 0, 0, 1⟩, []⟩ ∧
    (⟨⟨⟨0xc802, 12⟩, 1, 0, 0, 1⟩, []⟩ : v2ControlMessage).getType = .ok avpMsgTypeAck := by
  decide

/-! ## C2: encode/decode round trip -/

/-- C2 (counterexample): a message whose header length field is consistent
(12 plus the sum of the AVPs' encoded lengths) but whose first AVP is
Host-Name rather than Message-Type does not survive the round trip: decode
rejects it with the first-AVP-not-Message-Type error. -/
theorem roundtrip_counterexample :
    hostNameFirstMsg.header.common.len = 12 + avpsLengthBytes hostNameFirstMsg.avps ∧
    bytesToV2CtlMsg hostNameFirstMsg.toBytes = .error .firstAvpNotMessageTypeV2 ∧
    bytesToV2CtlMsg hostNameFirstMsg.toBytes ≠ .ok hostNameFirstMsg := by
  decide

/-- C2 (amended): for every well-formed v2 message (16-bit fields, octet
payloads, AVP length bookkeeping consistent) whose header length field
equals 12 plus the sum of its AVPs' total encoded lengths *and whose first
AVP, when the sequence is nonempty, is the Message-Type AVP*, decoding the
encoding yields the message back, field for field. -/
theorem encode_decode_roundtrip (m : v2ControlMessage) (hwf : v2MsgWF m)
    (hlen : m.header.common.len = 12 + avpsLengthBytes m.avps)
    (hfirst : ∀ a t, m.avps = a :: t → a.getType = avpTypeMessage) :
    bytesToV2CtlMsg m.toBytes = .ok m := by
  obtain ⟨hdr, avps⟩ := m
  obtain ⟨hh, ha⟩ := hwf
  dsimp only at hh ha hlen hfirst
  unfold v2ControlMessage.toBytes bytesToV2CtlMsg
  dsimp only
  rw [readV2Header_encode hdr _ hh]
  dsimp only
  cases avps with
  | nil =>
    have h12 : hdr.common.len = 12 := by
      simpa [avpsLengthBytes] using hlen
    rw [if_neg (by unfold v2HeaderLen; omega)]
  | cons a t =>
    have h6 : 6 ≤ a.totalLen := by unfold avp.totalLen; omega
    have hS : avpsLengthBytes (a :: t) = a.totalLen + avpsLengthBytes t := by
      simp [avpsLengthBytes]
    rw [if_pos (by unfold v2HeaderLen; omega)]
    have hblen : (encodeV2Header hdr ++ ((a :: t).map avp.encode).flatten).length
        = hdr.common.len := by
      simp only [List.length_append, flatten_encode_length]
      have : (encodeV2Header hdr).length = 12 := by simp [encodeV2Header, u16BE]
      omega
    rw [if_neg (by omega)]
    rw [encodeV2Header_drop]
    rw [show hdr.common.len - 12 = (((a :: t).map avp.encode).flatten).length from by
      rw [flatten_encode_length]; omega]
    rw [List.take_length]
    rw [parseAVPBuffer_encode (a :: t) (by simp) ha]
    dsimp only
    rw [if_neg (by simp [hfirst a t rfl])]

/-- C2 (witness): the round trip at the concrete Hello message. -/
theorem encode_decode_roundtrip_witness :
    v2MsgWF helloMsg ∧
    helloMsg.header.common.len = 12 + avpsLengthBytes helloMsg.avps ∧
    bytesToV2CtlMsg helloMsg.toBytes = .ok helloMsg :=
  ⟨by decide, by decide,
   encode_decode_roundtrip helloMsg (by decide) (by decide)
     (by
       intro a t h
       rw [show helloMsg.avps = [⟨⟨0x8008, 0, 0⟩, [0, 6]⟩] from rfl] at h
       injection h with h1 h2
       rw [← h1]
       decide)⟩

/-! ## C3: illegal protocol version -/

/-- C3 (counterexample): a 12-octet buffer whose version nibble is 5 and
whose length field is 13 is rejected with the malformed-header error, not
the illegal-protocol-version error — the bounds check on the length field
runs before the version check. -/
theorem illegal_version_counterexample :
    12 ≤ badVersionOverlongWire.length ∧
    be16 badVersionOverlongWire 0 % 16 = 5 ∧
    parseMessageBuffer badVersionOverlongWire = .error (.malformedHeader 13 8) ∧
    parseMessageBuffer badVersionOverlongWire ≠ .error .illegalProtocolVersion := by
  decide

/-- C3 (amended): for every buffer of at least 12 octets whose version
nibble is neither 2 nor 3 *and whose length field passes the bounds check*
(`(len - 4) mod 2^16` at most the buffer length after the common header),
the parser fails with the illegal-protocol-version error. -/
theorem illegal_version_rejected (b : List Nat) (h12 : 12 ≤ b.length)
    (hv2 : be16 b 0 % 16 ≠ 2) (hv3 : be16 b 0 % 16 ≠ 3)
    (hbound : (be16 b 2 + 65532) % 65536 ≤ b.length - 4) :
    parseMessageBuffer b = .error .illegalProtocolVersion := by
  simp only [parseMessageBuffer, parseLoop, Nat.zero_add, Nat.sub_zero]
  rw [if_neg (show ¬(b.length < controlMessageMinLen) by
    unfold controlMessageMinLen; omega)]
  rw [if_neg (show ¬((be16 b 2 + 65536 - commonHeaderLen) % 65536 > b.length - 4) by
    unfold commonHeaderLen; omega)]
  unfold protocolVersion
  rw [if_neg (by simpa using hv2), if_neg (by simpa using hv3)]

/-- C3 (witness): the amended theorem applied to a 12-octet buffer with
version nibble 5 and in-bounds length field 12. -/
theorem illegal_version_rejected_witness :
    12 ≤ badVersionWire.length ∧
    be16 badVersionWire 0 % 16 ≠ 2 ∧
    parseMessageBuffer badVersionWire = .error .illegalProtocolVersion :=
  ⟨by decide, by decide,
   illegal_version_rejected badVersionWire (by decide) (by decide) (by decide) (by decide)⟩

/-! ## C4: validate characterization -/

/-- C4: `validate()` succeeds if and only if a spec is registered for the
derived message type, every AVP's type is listed in it and its typed value
decodes, and every MustExist type occurs among the AVPs; and on the concrete
scenarios, a complete SCCRQ validates, an SCCRQ lacking the Tunnel-ID AVP
fails with the missing-mandatory-AVP error naming Tunnel-ID, an unlisted
AVP type fails with the unexpected-AVP error, and an undecodable AVP fails
with the wrapped decode error. -/
theorem validate_characterization :
    (∀ m : v2ControlMessage, m.validate = .ok () ↔ validateSpecOk m) ∧
    sccrqMsg.validate = .ok () ∧
    sccrqNoTidMsg.validate =
      .error (.missingMandatoryAvp avpTypeTunnelID avpMsgTypeSccrq) ∧
    sccrqUnexpectedMsg.validate =
      .error (.unexpectedAvp avpTypeChallengeResponse avpMsgTypeSccrq) ∧
    sccrqBadFramingMsg.validate =
      .error (.avpDecodeFailed avpTypeFramingCap avpMsgTypeSccrq) :=
  ⟨validate_ok_iff_spec, by decide, by decide, by decide, by decide⟩

/-! ## C5: zero-length-body acknowledgement decode -/

/-- C5: any buffer of at least 12 octets whose header length field reads 12
decodes to a message with an empty AVP sequence whose derived type is the
Acknowledgement pseudo-type. -/
theorem zlb_decode_ack (b : List Nat) (h12 : 12 ≤ b.length)
    (hlen : be16 b 2 = 12) :
    ∃ m, bytesToV2CtlMsg b = .ok m ∧ m.avps = [] ∧
      m.getType = .ok avpMsgTypeAck := by
  refine ⟨⟨⟨⟨be16 b 0, be16 b 2⟩, be16 b 4, be16 b 6, be16 b 8, be16 b 10⟩, []⟩,
    ?_, rfl, rfl⟩
  unfold bytesToV2CtlMsg readV2Header
  rw [if_neg (by omega)]
  simp [hlen, v2HeaderLen]

/-- C5 (witness): the theorem applied to the concrete ZLB frame. -/
theorem zlb_decode_ack_witness :
    12 ≤ zlbWire.length ∧ be16 zlbWire 2 = 12 ∧
    ∃ m, bytesToV2CtlMsg zlbWire = .ok m ∧ m.avps = [] ∧
      m.getType = .ok avpMsgTypeAck :=
  ⟨by decide, by decide, zlb_decode_ack zlbWire (by decide) (by decide)⟩

/-! ## C7: reachability of the getType panics on decoded messages -/

/-- C7: `bytesToV2CtlMsg` accepts a frame whose first AVP has type
Message-Type but a 1-octet payload (decode only checks the type, not the
payload), and `getType` on the decoded message then reaches the
"Failed to decode AVP message type" panic — so the second fatal abort is
reachable from network input, contradicting the claim that both panic
branches are unreachable for decoded messages. -/
theorem decoded_message_gettype_panics :
    bytesToV2CtlMsg shortMsgTypeWire = .ok shortMsgTypeMsg ∧
    shortMsgTypeMsg.getType = .error .panicMsgTypeDecode := by
  decide

/-! ## C6: builder id range checking -/

/-- C6 (counterexample): building a StopCCN from a configuration whose
locally-assigned tunnel id is 70000 (beyond the 16-bit range) succeeds — the
id is silently truncated to 0x1170 inside the Tunnel-ID AVP — refuting the
claim that such a build fails with an id-out-of-range error. -/
theorem stopccn_local_tid_not_validated :
    70000 > v2TidSidMax ∧
    newV2Stopccn 1 ⟨70000, 1⟩ = .ok stopccnTruncatedMsg := by
  decide

/-- C6 (amended): the id range check applies to the ids passed to
`newV2ControlMessage` — for the StopCCN builder the *peer* tunnel id (the
session id passed is always 0).  Building fails with the id-out-of-range
error exactly when the peer tunnel id exceeds the 16-bit range, and the
error is produced before any header exists; otherwise the build succeeds,
with the locally-assigned tunnel id truncated to 16 bits inside the
Tunnel-ID AVP. -/
theorem stopccn_peer_tid_range (rc : Nat) (cfg : TunnelConfig) :
    (v2TidSidMax < cfg.peerTunnelID →
      newV2Stopccn rc cfg = .error (.tidOutOfRange cfg.peerTunnelID)) ∧
    (cfg.peerTunnelID ≤ v2TidSidMax →
      newV2Stopccn rc cfg = .ok
        ⟨⟨⟨0xc802, 36⟩, cfg.peerTunnelID % 65536, 0, 0, 0⟩,
         [⟨⟨0x8008, 0, 0⟩, [0, 4]⟩,
          ⟨⟨0x8008, 0, 9⟩, u16BE (cfg.tunnelID % 65536)⟩,
          ⟨⟨0x8008, 0, 1⟩, u16BE rc⟩]⟩) := by
  constructor
  · intro h
    unfold newV2Stopccn buildV2TunnelMsg newV2ControlMessage
    rw [if_pos (show cfg.peerTunnelID > v2TidSidMax from h)]
  · intro h
    unfold newV2Stopccn buildV2TunnelMsg newV2ControlMessage
    rw [if_neg (by omega), if_neg (by decide)]
    rfl

/-- C6 (witness): the amended theorem applied with the peer tunnel id out of
range (70000) and in range (1). -/
theorem stopccn_peer_tid_range_witness :
    (v2TidSidMax < 70000 ∧
      newV2Stopccn 1 ⟨1, 70000⟩ = .error (.tidOutOfRange 70000)) ∧
    (1 ≤ v2TidSidMax ∧
      newV2Stopccn 1 ⟨1, 1⟩ = .ok
        ⟨⟨⟨0xc802, 36⟩, 1, 0, 0, 0⟩,
         [⟨⟨0x8008, 0, 0⟩, [0, 4]⟩, ⟨⟨0x8008, 0, 9⟩, [0, 1]⟩,
          ⟨⟨0x8008, 0, 1⟩, [0, 1]⟩]⟩) :=
  ⟨⟨by decide, (stopccn_peer_tid_range 1 ⟨1, 70000⟩).1 (by decide)⟩,
   ⟨by decide, (stopccn_peer_tid_range 1 ⟨1, 1⟩).2 (by decide)⟩⟩

/-! ## C8: the v3 decode paths -/

/-- C8 (counterexample): the `part_000` revision's `bytesToV3CtlMsg` is a
real decoder, not a stub: it produces a message value on a well-formed v3
frame, refuting "the v3 decode path never produces a message value". -/
theorem v3_decode_produces_message :
    bytesToV3CtlMsg v3Wire = .ok v3WireMsg := by decide

/-- C8 (amended): in the `l2tp/msg.go` revision, every attempt to decode a
byte buffer as a v3 control message fails with the distinct "not
implemented" error. -/
theorem v3_stub_not_implemented (b : List Nat) :
    newL2tpV3ControlMessage b = .error .notImplemented := rfl

/-! ## C9: repeatability of validate across calls

`validate` reads but never writes its receiver, so the only way two
successive calls can differ is the randomized iteration order of the `seen`
map in the final loop, modelled by the `order` parameter of
`validateWithOrder`. -/

/-- The order-parameterized post-walk check succeeds exactly when every
visited key is marked. -/
theorem checkSeenO_ok_iff (o : List Nat) (t : Nat) (seen : List Nat) :
    checkSeenO o t seen = .ok () ↔ ∀ k ∈ o, k ∈ seen := by
  unfold checkSeenO
  cases hf : o.find? (fun k => !(seen.contains k)) with
  | none =>
    constructor
    · intro _ k hk
      have := List.find?_eq_none.mp hf k hk
      simpa using this
    · intro _; rfl
  | some k =>
    have hmem := List.mem_of_find?_eq_some hf
    have hpred := List.find?_some hf
    simp only [Bool.not_eq_true'] at hpred
    constructor
    · intro h; cases h
    · intro hall
      exfalso
      have := hall k hmem
      exact absurd this (by simpa using hpred)

/-- A failing order-parameterized post-walk check always reports a
missing-mandatory-AVP error for the given message type. -/
theorem checkSeenO_error_missing (o : List Nat) (t : Nat) (seen : List Nat)
    (e : l2tpError) (h : checkSeenO o t seen = .error e) :
    ∃ k, e = .missingMandatoryAvp k t := by
  unfold checkSeenO at h
  cases hf : o.find? (fun k => !(seen.contains k)) with
  | none => rw [hf] at h; cases h
  | some k =>
    rw [hf] at h
    injection h with h'
    exact ⟨k, h'.symm⟩

/-- The deterministic `checkSeen` is the order-parameterized check at the
spec insertion order of the seen map's keys. -/
theorem checkSeen_eq_checkSeenO (spec : msgSpec) (t : Nat) (seen : List Nat) :
    checkSeen spec t seen = checkSeenO (mustTypes spec) t seen := by
  unfold checkSeen checkSeenO mustTypes
  induction spec with
  | nil => rfl
  | cons p rest ih =>
    by_cases hm : p.2 = avpSpec.mustExist
    · by_cases hc : seen.contains p.1 = true
      · have hc' : p.1 ∈ seen := by simpa using hc
        rw [List.find?_cons_of_neg _ (by simp [hm, hc']),
            List.filter_cons_of_pos (by simp [hm]),
            List.map_cons,
            List.find?_cons_of_neg _ (by simp [hc'])]
        exact ih
      · have hc' : p.1 ∉ seen := by simpa using hc
        rw [List.find?_cons_of_pos _ (by simp [hm, hc']),
            List.filter_cons_of_pos (by simp [hm]),
            List.map_cons,
            List.find?_cons_of_pos _ (by simp [hc'])]
    · rw [List.find?_cons_of_neg _ (by simp [hm]),
          List.filter_cons_of_neg (by simp [hm])]
      exact ih

/-- C9 (counterexample): on a StopCCN-typed message missing two of its
three mandatory AVPs, two iteration orders the Go runtime can produce for
the `seen` map — both admissible permutations of its key set — make
`validate` report different missing-mandatory-AVP error values, refuting
"both fail with equal error values" for two successive calls. -/
theorem validate_error_value_nondeterministic :
    admissibleOrder stopccnMissingTwoMsg [0, 9, 1] ∧
    admissibleOrder stopccnMissingTwoMsg [0, 1, 9] ∧
    stopccnMissingTwoMsg.validateWithOrder [0, 9, 1] =
      .error (.missingMandatoryAvp avpTypeTunnelID avpMsgTypeStopccn) ∧
    stopccnMissingTwoMsg.validateWithOrder [0, 1, 9] =
      .error (.missingMandatoryAvp avpTypeResultCode avpMsgTypeStopccn) ∧
    stopccnMissingTwoMsg.validateWithOrder [0, 9, 1] ≠
      stopccnMissingTwoMsg.validateWithOrder [0, 1, 9] := by
  decide

/-- C9 (amended): two successive `validate()` calls on the same unmodified
message agree up to the randomized iteration order of the final seen-map
loop: for any two admissible orders both calls succeed or both fail; when
both fail the error values are equal unless both are missing-mandatory-AVP
errors for the message's type, which may name different missing mandatory
AVPs.  The deterministic `validate` embedding is itself one admissible run. -/
theorem validate_idempotent_up_to_missing (m : v2ControlMessage)
    (o1 o2 : List Nat) (h1 : admissibleOrder m o1) (h2 : admissibleOrder m o2) :
    (m.validateWithOrder o1 = .ok () ↔ m.validateWithOrder o2 = .ok ()) ∧
    (∀ e1 e2, m.validateWithOrder o1 = .error e1 →
      m.validateWithOrder o2 = .error e2 →
      e1 = e2 ∨ ∃ a1 a2 t, e1 = .missingMandatoryAvp a1 t ∧
        e2 = .missingMandatoryAvp a2 t) ∧
    (∃ o, admissibleOrder m o ∧ m.validate = m.validateWithOrder o) := by
  unfold admissibleOrder seenKeys at h1 h2
  unfold v2ControlMessage.validateWithOrder v2ControlMessage.validate
  cases hgt : m.getType with
  | error e =>
    refine ⟨Iff.rfl, ?_, [], ?_, rfl⟩
    · intro e1 e2 he1 he2
      left
      injection he1 with x
      injection he2 with y
      rw [← x, ← y]
    · unfold admissibleOrder seenKeys
      rw [hgt]
      exact trivial
  | ok t =>
    rw [hgt] at h1 h2
    dsimp only at h1 h2 ⊢
    cases hsp : getV2MsgSpec t with
    | error e =>
      refine ⟨Iff.rfl, ?_, [], ?_, rfl⟩
      · intro e1 e2 he1 he2
        left
        injection he1 with x
        injection he2 with y
        rw [← x, ← y]
      · unfold admissibleOrder seenKeys
        rw [hgt]
        dsimp only
        rw [hsp]
        exact trivial
    | ok spec =>
      rw [hsp] at h1 h2
      dsimp only at h1 h2 ⊢
      have hadm : admissibleOrder m (mustTypes spec) := by
        unfold admissibleOrder seenKeys
        rw [hgt]
        dsimp only
        rw [hsp]
      cases hw : validateWalk spec t m.avps [] with
      | error e =>
        refine ⟨Iff.rfl, ?_, mustTypes spec, hadm, rfl⟩
        intro e1 e2 he1 he2
        left
        injection he1 with x
        injection he2 with y
        rw [← x, ← y]
      | ok seen =>
        refine ⟨?_, ?_, mustTypes spec, hadm, checkSeen_eq_checkSeenO spec t seen⟩
        · rw [checkSeenO_ok_iff, checkSeenO_ok_iff]
          constructor
          · intro hall k hk
            exact hall k (h1.mem_iff.mpr (h2.mem_iff.mp hk))
          · intro hall k hk
            exact hall k (h2.mem_iff.mpr (h1.mem_iff.mp hk))
        · intro e1 e2 he1 he2
          right
          obtain ⟨k1, hk1⟩ := checkSeenO_error_missing o1 t seen e1 he1
          obtain ⟨k2, hk2⟩ := checkSeenO_error_missing o2 t seen e2 he2
          exact ⟨k1, k2, t, hk1, hk2⟩

/-- C9 (witness): the amended theorem applied to the complete SCCRQ with two
admissible iteration orders of its seen map. -/
theorem validate_idempotent_up_to_missing_witness :
    admissibleOrder sccrqMsg [0, 2, 7, 3, 9] ∧
    admissibleOrder sccrqMsg [9, 3, 7, 2, 0] ∧
    ((sccrqMsg.validateWithOrder [0, 2, 7, 3, 9] = .ok () ↔
        sccrqMsg.validateWithOrder [9, 3, 7, 2, 0] = .ok ()) ∧
      (∀ e1 e2, sccrqMsg.validateWithOrder [0, 2, 7, 3, 9] = .error e1 →
        sccrqMsg.validateWithOrder [9, 3, 7, 2, 0] = .error e2 →
        e1 = e2 ∨ ∃ a1 a2 t, e1 = .missingMandatoryAvp a1 t ∧
          e2 = .missingMandatoryAvp a2 t) ∧
      (∃ o, admissibleOrder sccrqMsg o ∧
        sccrqMsg.validate = sccrqMsg.validateWithOrder o)) :=
  ⟨by decide, by decide,
   validate_idempotent_up_to_missing sccrqMsg [0, 2, 7, 3, 9] [9, 3, 7, 2, 0]
     (by decide) (by decide)⟩

/-! ## C10: appendAvp length arithmetic -/

/-- C10: `appendAvp` updates the 16-bit header length field modulo 2^16 on
both message variants, so a cumulative encoded size beyond the 16-bit range
silently wraps — as the final conjunct shows at length 65530 plus an AVP of
total length 10. -/
theorem appendAvp_wraps_mod_65536 (m2 : v2ControlMessage) (m3 : v3ControlMessage)
    (a : avp) :
    (m2.appendAvp a).header.common.len = (m2.header.common.len + a.totalLen) % 65536 ∧
    (m3.appendAvp a).header.common.len = (m3.header.common.len + a.totalLen) % 65536 ∧
    ((⟨⟨⟨0xc802, 65530⟩, 0, 0, 0, 0⟩, []⟩ : v2ControlMessage).appendAvp
      ⟨⟨0x800a, 0, 11⟩, [1, 2, 3, 4]⟩).header.common.len = 4 := by
  refine ⟨?_, ?_, by decide⟩
  · simp only [v2ControlMessage.appendAvp]; omega
  · simp only [v3ControlMessage.appendAvp]; omega

end L2tp
